import Mathlib

/-!
Shallow embedding of the Inventory Ledger Engine of the stock-management
server (`src/server.js`, and its authenticated variant `src/unnamed/part_000`).

The embedded code is the adjustment endpoint
`PUT /api/inventory/:productId/adjust` (server.js lines 320-391): the
truthiness presence check on `quantity` and `movement_type`, the
`BEGIN`-transaction, the `SELECT` of the current inventory row, the
movement-type `switch` (`IN` / `OUT` / `ADJUSTMENT` / default-throw), the
inventory `UPDATE`, the `stock_movements` `INSERT` with the raw submitted
quantity, and `COMMIT` / `ROLLBACK`; plus the low-stock query
`GET /api/inventory/low-stock` (lines 303-318).

Modelling conventions:
* JavaScript request values are `JSValue` (an integral JSON number, a JSON
  string, or absent).  `parseInt` and JS truthiness are embedded directly.
* The database columns `inventory.quantity` and `stock_movements.quantity`
  are `INTEGER` (`int4`) per the `CREATE TABLE` statements (lines 47-69), so
  a parameter whose text serialization is not an integer (for example
  `"6.9"` or `"NaN"`), or an out-of-range value, makes the statement fail.
* The `BEGIN` / `COMMIT` / `ROLLBACK` bracket means writes become observable
  only at `COMMIT`; every error path rolls back, so the embedding returns
  the new state only from the single success path and the unchanged state
  from every other path.
* Timestamps (`updated_at`, `created_at`) and the `product_id` / `user_id`
  columns play no role in any property considered here and are omitted.
-/

/-- A JavaScript value arriving in the JSON request body.  `num n` is a JSON
number with integral value `n` (within the double-precision exact-integer
regime, where it stringifies to the decimal representation of `n`); `str s`
is a JSON string; `undef` is an absent field. -/
inductive JSValue : Type
  | num : Int → JSValue
  | str : String → JSValue
  | undef : JSValue
deriving Repr, DecidableEq

/-- JavaScript truthiness, as used by the guard
`if (!quantity || !movement_type)` (server.js line 325): the number `0`, the
empty string and `undefined` are falsy; every other number and string is
truthy. -/
def truthy : JSValue → Bool
  | .num n => n != 0
  | .str s => s != ""
  | .undef => false

/-- Whitespace accepted before a number both by JS `parseInt` and by
Postgres `int4in`. -/
def wsChar (c : Char) : Bool :=
  c = ' ' || c = '\t' || c = '\n' || c = '\r'

/-- Value of a decimal digit character, `none` on a non-digit. -/
def decDigit? (c : Char) : Option Nat :=
  if '0' ≤ c ∧ c ≤ '9' then some (c.toNat - '0'.toNat) else none

/-- Value of a hexadecimal digit character, `none` on a non-digit. -/
def hexDigit? (c : Char) : Option Nat :=
  if '0' ≤ c ∧ c ≤ '9' then some (c.toNat - '0'.toNat)
  else if 'a' ≤ c ∧ c ≤ 'f' then some (c.toNat - 'a'.toNat + 10)
  else if 'A' ≤ c ∧ c ≤ 'F' then some (c.toNat - 'A'.toNat + 10)
  else none

/-- Longest prefix of digit values read by `digit?`. -/
def digitPrefix (digit? : Char → Option Nat) : List Char → List Nat
  | [] => []
  | c :: rest =>
    match digit? c with
    | some d => d :: digitPrefix digit? rest
    | none => []

/-- Fold a digit list into its value in the given base. -/
def digitsToNat (base : Nat) (ds : List Nat) : Nat :=
  ds.foldl (fun acc d => acc * base + d) 0

/-- JS `parseInt(s)` (radix argument omitted) on a string: skip leading
whitespace, read an optional sign, detect a `0x`/`0X` prefix (radix 16,
radix 10 otherwise), then read the longest prefix of digits of that radix;
`none` models the `NaN` result when no digit is read. -/
def jsParseIntStr (s : String) : Option Int :=
  let cs := s.toList.dropWhile wsChar
  let signed : Bool × List Char :=
    match cs with
    | '-' :: rest => (true, rest)
    | '+' :: rest => (false, rest)
    | _ => (false, cs)
  let body : Nat × List Nat :=
    match signed.2 with
    | '0' :: 'x' :: rest => (16, digitPrefix hexDigit? rest)
    | '0' :: 'X' :: rest => (16, digitPrefix hexDigit? rest)
    | other => (10, digitPrefix decDigit? other)
  if body.2.isEmpty then none
  else
    let v : Int := (digitsToNat body.1 body.2 : Nat)
    some (if signed.1 then -v else v)

/-- JS `parseInt(quantity)` as applied in the movement-type switch
(server.js lines 347, 350, 356).  `parseInt` first converts its argument to
a string: an integral JS number round-trips to itself, a string is parsed by
`jsParseIntStr`, and `undefined` stringifies to `"undefined"` which parses
to `NaN` (`none`). -/
def jsParseInt : JSValue → Option Int
  | .num n => some n
  | .str s => jsParseIntStr s
  | .undef => none

/-- Postgres `int4` text input (`int4in`), applied to the text serialization
of a parameter bound to an `INTEGER` column: optional surrounding
whitespace, an optional sign, and one or more decimal digits — nothing else
(no decimal point, no exponent).  `none` models the
`invalid input syntax for type integer` error. -/
def pgParseIntStr (s : String) : Option Int :=
  let cs := s.toList.dropWhile wsChar
  let signed : Bool × List Char :=
    match cs with
    | '-' :: rest => (true, rest)
    | '+' :: rest => (false, rest)
    | _ => (false, cs)
  let ds := digitPrefix decDigit? signed.2
  let rest := (signed.2.drop ds.length).dropWhile wsChar
  if ds.isEmpty || !rest.isEmpty then none
  else
    let v : Int := (digitsToNat 10 ds : Nat)
    some (if signed.1 then -v else v)

/-- The integer value an `INTEGER`-column parameter binds to, `none` when the
statement fails with an input-syntax error.  The node-postgres driver sends
an integral JS number as its decimal text and a string verbatim; `undefined`
becomes SQL `NULL`, rejected by the `NOT NULL` constraint on
`stock_movements.quantity` (server.js line 64). -/
def pgIntValue : JSValue → Option Int
  | .num n => some n
  | .str s => pgParseIntStr s
  | .undef => none

/-- Range of the `INTEGER` (`int4`) columns; values outside it make the
statement fail with `integer out of range`. -/
def int4range (n : Int) : Bool :=
  -(2 ^ 31) ≤ n && n < 2 ^ 31

/-- One `inventory` row (columns of the `CREATE TABLE` at server.js
lines 47-57 that the embedded endpoints read or write). -/
structure InventoryRow where
  quantity : Int
  min_stock_level : Int
  max_stock_level : Int
  location : String
deriving Repr, DecidableEq

/-- One `stock_movements` row (columns of the `CREATE TABLE` at server.js
lines 59-69 that the adjust endpoint writes; `quantity` holds the integer
the `INTEGER` column bound from the raw submitted value). -/
structure MovementRow where
  movement_type : String
  quantity : Int
  reference_number : String
  notes : String
deriving Repr, DecidableEq

/-- The ledger state for one product: its `inventory` row and its
append-only list of `stock_movements` rows. -/
structure ProductState where
  inv : InventoryRow
  movements : List MovementRow
deriving Repr, DecidableEq

/-- Outcome of the adjust endpoint, by HTTP response:
`success` is the 200 body `{old_quantity, new_quantity}` (lines 376-380),
`badRequest` the 400 of the presence check (line 326), `notFound` the 404
(line 338), and `serverError` the 500 built from `error.message` in the
catch handler (line 389). -/
inductive AdjustOutcome : Type
  | success (old_quantity new_quantity : Int)
  | badRequest (msg : String)
  | notFound
  | serverError (msg : String)
deriving Repr, DecidableEq

/-- Whether an outcome is the 200 success response. -/
def isSuccess : AdjustOutcome → Bool
  | .success _ _ => true
  | _ => false

/-- Whether an outcome is a 400 `badRequest` response. -/
def isBadRequest : AdjustOutcome → Bool
  | .badRequest _ => true
  | _ => false

/-- The body of the adjust transaction once the inventory row was found
(server.js lines 341-380), as one atomic transition on the product's ledger
state.  `failInsert` injects a failure into the `stock_movements` `INSERT`
(for the atomicity property); the real endpoint is `failInsert = false`.

The movement-type switch (lines 345-360) computes `newQuantity` — `IN` adds
`parseInt(quantity)`, `OUT` subtracts it and throws `Insufficient stock`
when the result is negative (a `NaN` result compares `false` with `< 0` and
falls through), `ADJUSTMENT` overrides with it, and any other type throws
`Invalid movement type`; the `UPDATE` (line 363) fails when `newQuantity`
is `NaN` or out of `int4` range; the `INSERT` (line 369) binds the *raw*
submitted `quantity` to the `INTEGER` column and fails when it is not an
in-range integer.  A thrown error or failed statement reaches the
`ROLLBACK` + catch handler (lines 381-390), answering 500 with the error
message and leaving the state unchanged; only the `COMMIT` path returns the
updated state. -/
def adjustFound (failInsert : Bool) (s : ProductState) (quantity : JSValue)
    (movement_type reference_number notes : String) :
    AdjustOutcome × ProductState :=
  let current := s.inv.quantity
  let step : Except String (Option Int) :=
    match movement_type with
    | "IN" => .ok ((jsParseInt quantity).map (fun q => current + q))
    | "OUT" =>
      match jsParseInt quantity with
      | none => .ok none
      | some q =>
        if current - q < 0 then .error "Insufficient stock"
        else .ok (some (current - q))
    | "ADJUSTMENT" => .ok (jsParseInt quantity)
    | _ => .error "Invalid movement type"
  match step with
  | .error msg => (.serverError msg, s)
  | .ok newQuantity =>
    match newQuantity with
    | none =>
      (.serverError "invalid input syntax for type integer: NaN", s)
    | some n =>
      if !int4range n then (.serverError "integer out of range", s)
      else
        match (if failInsert then none else pgIntValue quantity) with
        | none =>
          (.serverError "invalid input syntax for type integer", s)
        | some m =>
          if !int4range m then (.serverError "integer out of range", s)
          else
            (.success current n,
             { inv := { s.inv with quantity := n },
               movements := s.movements ++
                 [{ movement_type := movement_type, quantity := m,
                    reference_number := reference_number,
                    notes := notes }] })

/-- The adjust endpoint `PUT /api/inventory/:productId/adjust`
(server.js lines 320-391): the truthiness presence check (line 325) answers
400 before any database work; a missing inventory row answers 404
(line 338) with nothing written; otherwise the transaction body
`adjustFound` runs. -/
def adjust (failInsert : Bool) (st : Option ProductState) (quantity : JSValue)
    (movement_type reference_number notes : String) :
    AdjustOutcome × Option ProductState :=
  if !(truthy quantity && movement_type != "") then
    (.badRequest "Quantity and movement type are required", st)
  else
    match st with
    | none => (.notFound, none)
    | some s =>
      let r := adjustFound failInsert s quantity movement_type
        reference_number notes
      (r.1, some r.2)

/-- One request to the adjust endpoint (the JSON body fields it reads,
server.js line 323). -/
structure AdjustRequest where
  quantity : JSValue
  movement_type : String
  reference_number : String
  notes : String
deriving Repr, DecidableEq

/-- The state after one adjust request against an existing inventory row
(the endpoint on a present row never deletes it, so the `none` fallback is
unreachable and kept only for totality). -/
def applyAdjust (s : ProductState) (r : AdjustRequest) : ProductState :=
  match (adjust false (some s) r.quantity r.movement_type
          r.reference_number r.notes).2 with
  | some s2 => s2
  | none => s

/-- The state after a sequence of adjust requests. -/
def runAdjusts (s : ProductState) (rs : List AdjustRequest) : ProductState :=
  rs.foldl applyAdjust s

/-- The low-stock query `GET /api/inventory/low-stock`
(server.js lines 303-318): the `inventory` rows with
`quantity <= min_stock_level`, ordered by `quantity` ascending. -/
def lowStock (rows : List InventoryRow) : List InventoryRow :=
  (rows.filter (fun r => r.quantity ≤ r.min_stock_level)).mergeSort
    (fun a b => a.quantity ≤ b.quantity)

/-- Sample ledger state: the given quantity, `min_stock_level = 0`,
`max_stock_level = 1000` (the schema defaults), empty movement history. -/
def sampleState (q : Int) : ProductState :=
  { inv := { quantity := q, min_stock_level := 0, max_stock_level := 1000,
             location := "A1" },
    movements := [] }

/-- A request whose `IN` magnitude or `ADJUSTMENT` target, if it parses at
all, is non-negative (no restriction on `OUT` or other types). -/
def goodRequest (r : AdjustRequest) : Bool :=
  !(r.movement_type == "IN" || r.movement_type == "ADJUSTMENT")
  || (match jsParseInt r.quantity with
      | some q => decide (0 ≤ q)
      | none => true)

/-- The transaction body preserves `quantity >= 0` when the request's `IN`
magnitude or `ADJUSTMENT` target is non-negative. -/
theorem adjustFound_nonneg (fi : Bool) (s : ProductState) (q : JSValue)
    (mt rn nt : String) (h0 : 0 ≤ s.inv.quantity)
    (hg : goodRequest ⟨q, mt, rn, nt⟩ = true) :
    0 ≤ (adjustFound fi s q mt rn nt).2.inv.quantity := by
  unfold adjustFound
  repeat' (split <;> try simp_all [goodRequest])
  · rename_i mtv x1 q1 hex h1 x2 q2 hpg h2
    obtain ⟨a, ha, rfl⟩ := hex
    simp [ha] at hg
    omega
  · rename_i mtv stepv x1 q1 hout h1 x2 q2 hpg h2
    rcases hparse : jsParseInt q with _ | p <;> rw [hparse] at hout
    · exact absurd hout (by simp)
    · rw [show (match some p with
          | none => Except.ok none
          | some qv =>
            if s.inv.quantity < qv then Except.error "Insufficient stock"
            else Except.ok (some (s.inv.quantity - qv))) =
          (if s.inv.quantity < p then
            (Except.error "Insufficient stock" : Except String (Option Int))
           else Except.ok (some (s.inv.quantity - p))) from rfl] at hout
      split_ifs at hout with hlt
      simp at hout
      omega

/-- The endpoint on a present row either rejects with the state unchanged or
runs the transaction body. -/
theorem applyAdjust_eq (s : ProductState) (r : AdjustRequest) :
    applyAdjust s r =
      if truthy r.quantity && r.movement_type != "" then
        (adjustFound false s r.quantity r.movement_type
          r.reference_number r.notes).2
      else s := by
  unfold applyAdjust adjust
  rcases h : (truthy r.quantity && r.movement_type != "") with _ | _
  · simp [h]
  · simp [h]

/-- C1 (amended): starting from a non-negative quantity, after any sequence
of adjust calls in which every `IN` magnitude and every `ADJUSTMENT` target
that parses is non-negative, the stored quantity stays non-negative. -/
theorem c1_nonneg_invariant (s : ProductState) (rs : List AdjustRequest)
    (h0 : 0 ≤ s.inv.quantity) (hg : ∀ r ∈ rs, goodRequest r = true) :
    0 ≤ (runAdjusts s rs).inv.quantity := by
  induction rs generalizing s with
  | nil => simpa [runAdjusts] using h0
  | cons r rs ih =>
    have hr := hg r (by simp)
    have hstep : 0 ≤ (applyAdjust s r).inv.quantity := by
      rw [applyAdjust_eq]
      split_ifs with h
      · exact adjustFound_nonneg false s r.quantity r.movement_type
          r.reference_number r.notes h0 hr
      · exact h0
    have hrun : runAdjusts s (r :: rs) = runAdjusts (applyAdjust s r) rs := rfl
    rw [hrun]
    exact ih (applyAdjust s r) hstep (fun x hx => hg x (by simp [hx]))

/-- C1 (counterexample): `Adjust(IN, -5)` on quantity `0` is accepted and
commits, leaving the stored quantity `-5 < 0`. -/
theorem c1_counterexample :
    isSuccess (adjust false (some (sampleState 0)) (.num (-5)) "IN" "" "").1
        = true ∧
    ((adjust false (some (sampleState 0)) (.num (-5)) "IN" "" "").2.map
        (fun st => st.inv.quantity)) = some (-5) := by
  decide

/-- Witness for `c1_nonneg_invariant` at a concrete run. -/
theorem c1_witness :
    0 ≤ (sampleState 0).inv.quantity ∧
    0 ≤ (runAdjusts (sampleState 0)
          [⟨.num 50, "IN", "", ""⟩, ⟨.num 60, "OUT", "", ""⟩,
           ⟨.num 30, "ADJUSTMENT", "", ""⟩]).inv.quantity :=
  ⟨by decide, c1_nonneg_invariant _ _ (by decide) (by decide)⟩

/-- C2: an `OUT` adjustment requesting more than the current quantity fails
with `Insufficient stock`, leaves the stored quantity unchanged and appends
no movement row. -/
theorem c2_out_insufficient (s : ProductState) (q : Int) (rn nt : String)
    (hcur : 0 ≤ s.inv.quantity) (hlt : s.inv.quantity - q < 0) :
    adjust false (some s) (.num q) "OUT" rn nt =
      (.serverError "Insufficient stock", some s) := by
  have hq : (q != 0) = true := by simp; omega
  simp [adjust, adjustFound, truthy, jsParseInt, hq, hlt]

/-- Witness for `c2_out_insufficient`: `Adjust(OUT, 60)` on quantity `50`
fails and leaves the state untouched. -/
theorem c2_witness :
    0 ≤ (sampleState 50).inv.quantity ∧
    (sampleState 50).inv.quantity - 60 < 0 ∧
    adjust false (some (sampleState 50)) (.num 60) "OUT" "" "" =
      (.serverError "Insufficient stock", some (sampleState 50)) :=
  ⟨by decide, by decide,
   c2_out_insufficient (sampleState 50) 60 "" "" (by decide) (by decide)⟩

/-- Every run of the transaction body either leaves the state unchanged with
a non-success outcome, or succeeds having written both the new quantity and
exactly one appended movement row. -/
theorem adjustFound_cases (fi : Bool) (s : ProductState) (q : JSValue)
    (mt rn nt : String) :
    ((adjustFound fi s q mt rn nt).2 = s ∧
      isSuccess (adjustFound fi s q mt rn nt).1 = false) ∨
    (∃ n m : Int,
      adjustFound fi s q mt rn nt =
        (.success s.inv.quantity n,
         { inv := { s.inv with quantity := n },
           movements := s.movements ++ [⟨mt, m, rn, nt⟩] })) := by
  unfold adjustFound
  dsimp only
  repeat' split
  all_goals try exact Or.inl ⟨rfl, rfl⟩
  all_goals exact Or.inr ⟨_, _, rfl⟩

/-- With the movement-row insert forced to fail, the transaction body always
rolls back to the original state. -/
theorem adjustFound_failInsert (s : ProductState) (q : JSValue)
    (mt rn nt : String) : (adjustFound true s q mt rn nt).2 = s := by
  unfold adjustFound
  dsimp only
  repeat' split
  all_goals first | rfl | simp_all

/-- On a present inventory row the endpoint is the presence check followed
by the transaction body. -/
theorem adjust_some (fi : Bool) (s : ProductState) (q : JSValue)
    (mt rn nt : String) :
    adjust fi (some s) q mt rn nt =
      if truthy q && mt != "" then
        ((adjustFound fi s q mt rn nt).1,
         some (adjustFound fi s q mt rn nt).2)
      else (.badRequest "Quantity and movement type are required", some s) := by
  unfold adjust
  rcases h : (truthy q && mt != "") with _ | _ <;> simp

/-- C3: the adjust transaction is atomic.  With a failure injected into the
movement-record insert (issued after the inventory update) the state always
rolls back unchanged; without injection, every non-success outcome leaves
the state unchanged, and a success writes the new quantity and exactly one
appended movement row together. -/
theorem c3_atomicity :
    (∀ (s : ProductState) (q : JSValue) (mt rn nt : String),
      (adjust true (some s) q mt rn nt).2 = some s) ∧
    (∀ (s : ProductState) (q : JSValue) (mt rn nt : String),
      isSuccess (adjust false (some s) q mt rn nt).1 = false →
        (adjust false (some s) q mt rn nt).2 = some s) ∧
    (∀ (s s2 : ProductState) (q : JSValue) (mt rn nt : String) (o n : Int),
      adjust false (some s) q mt rn nt = (.success o n, some s2) →
        s2.inv.quantity = n ∧ ∃ m : Int,
          s2.movements = s.movements ++ [⟨mt, m, rn, nt⟩]) := by
  refine ⟨?_, ?_, ?_⟩
  · intro s q mt rn nt
    rw [adjust_some]
    split_ifs
    · simp [adjustFound_failInsert]
    · rfl
  · intro s q mt rn nt hns
    rw [adjust_some] at hns ⊢
    split_ifs at hns ⊢ with hp
    · rcases adjustFound_cases false s q mt rn nt with ⟨h1, _⟩ | ⟨n, m, hf⟩
      · simpa using h1
      · rw [hf] at hns
        simp [isSuccess] at hns
    · rfl
  · intro s s2 q mt rn nt o n heq
    rw [adjust_some] at heq
    split_ifs at heq with hp
    · rcases adjustFound_cases false s q mt rn nt with ⟨_, h2⟩ | ⟨n2, m, hf⟩
      · rw [Prod.ext_iff] at heq
        rw [heq.1] at h2
        simp [isSuccess] at h2
      · rw [hf] at heq
        rw [Prod.ext_iff] at heq
        obtain ⟨he1, he2⟩ := heq
        simp only [AdjustOutcome.success.injEq] at he1
        simp only [Option.some.injEq] at he2
        subst he2
        refine ⟨by simp [← he1.2], ⟨m, by simp⟩⟩
    · simp at heq

/-- Witness for `c3_atomicity`: a forced insert failure on a concrete `IN`
adjustment leaves the state unchanged, and a concrete invalid movement type
(a non-success) also leaves it unchanged. -/
theorem c3_witness :
    (adjust true (some (sampleState 7)) (.num 5) "IN" "" "").2 =
      some (sampleState 7) ∧
    (adjust false (some (sampleState 7)) (.num 5) "FOO" "" "").2 =
      some (sampleState 7) :=
  ⟨c3_atomicity.1 (sampleState 7) (.num 5) "IN" "" "",
   c3_atomicity.2.1 (sampleState 7) (.num 5) "FOO" "" "" (by decide)⟩

/-- C4 (counterexample): `Adjust(ADJUSTMENT, 0)` on an existing row with
quantity 50 does not return `(50, 0)`: the truthiness presence check rejects
the number `0` with a 400, so the call is not processed as an absolute
override. -/
theorem c4_counterexample :
    adjust false (some (sampleState 50)) (.num 0) "ADJUSTMENT" "" "" =
      (.badRequest "Quantity and movement type are required",
       some (sampleState 50)) := by
  decide

/-- C4 (amended): an `ADJUSTMENT` whose quantity is a nonzero integer in the
`int4` range sets the stored quantity to exactly that value, answers the
pair `(old_quantity, new_quantity)`, and appends one `ADJUSTMENT` movement
row carrying the requested value. -/
theorem c4_adjustment_override (s : ProductState) (q : Int) (rn nt : String)
    (hq : q ≠ 0) (hr : int4range q = true) :
    adjust false (some s) (.num q) "ADJUSTMENT" rn nt =
      (.success s.inv.quantity q,
       some { inv := { s.inv with quantity := q },
              movements := s.movements ++ [⟨"ADJUSTMENT", q, rn, nt⟩] }) := by
  rw [adjust_some]
  have ht : (truthy (JSValue.num q) && "ADJUSTMENT" != "") = true := by
    simp [truthy]; exact hq
  rw [if_pos ht]
  unfold adjustFound
  dsimp only
  simp [jsParseInt, pgIntValue, hr]

/-- Witness for `c4_adjustment_override`: `Adjust(ADJUSTMENT, 30)` on
quantity 50 returns `(50, 30)` and records `ADJUSTMENT` with value 30. -/
theorem c4_witness :
    (30 : Int) ≠ 0 ∧ int4range 30 = true ∧
    adjust false (some (sampleState 50)) (.num 30) "ADJUSTMENT" "" "" =
      (.success 50 30,
       some { inv := { quantity := 30, min_stock_level := 0,
                       max_stock_level := 1000, location := "A1" },
              movements := [⟨"ADJUSTMENT", 30, "", ""⟩] }) :=
  ⟨by decide, by decide,
   c4_adjustment_override (sampleState 50) 30 "" "" (by decide) (by decide)⟩

/-- An absent JSON request field (`undefined`). -/
def absentField : JSValue :=
  JSValue.undef

/-- A quantity that parses to `NaN` makes the transaction body fail with a
500 server error (the `UPDATE` cannot bind `NaN`, or the switch throws),
leaving the state unchanged. -/
theorem adjustFound_nan (fi : Bool) (s : ProductState) (q : JSValue)
    (mt rn nt : String) (hparse : jsParseInt q = none) :
    (∃ msg, (adjustFound fi s q mt rn nt).1 = .serverError msg) ∧
    (adjustFound fi s q mt rn nt).2 = s := by
  by_cases h1 : mt = "IN"
  · subst h1; simp [adjustFound, hparse]
  by_cases h2 : mt = "OUT"
  · subst h2; simp [adjustFound, hparse]
  by_cases h3 : mt = "ADJUSTMENT"
  · subst h3; simp [adjustFound, hparse]
  · simp [adjustFound, hparse, h1, h2, h3]

/-- C5 (counterexample): the non-numeric quantity `"abc"` is not rejected
with an `InvalidRequest` (400): it passes the truthiness check and the call
fails only inside the transaction, as a 500 server error. -/
theorem c5_counterexample :
    isBadRequest
        (adjust false (some (sampleState 50)) (.str "abc") "IN" "" "").1 =
      false ∧
    (adjust false (some (sampleState 50)) (.str "abc") "IN" "" "").1 =
      .serverError "invalid input syntax for type integer: NaN" := by
  decide

/-- C5 (amended): an absent quantity fails with the 400 `InvalidRequest`
before any database work; a truthy but non-numeric quantity (one parsing to
`NaN`) is not caught by validation — the call fails inside the transaction
with a 500 server error, rolled back with no observable write. -/
theorem c5_quantity_validation :
    (∀ (st : Option ProductState) (mt rn nt : String),
      adjust false st absentField mt rn nt =
        (.badRequest "Quantity and movement type are required", st)) ∧
    (∀ (s : ProductState) (q : JSValue) (mt rn nt : String),
      truthy q = true → mt ≠ "" → jsParseInt q = none →
        (∃ msg, (adjust false (some s) q mt rn nt).1 = .serverError msg) ∧
        (adjust false (some s) q mt rn nt).2 = some s) := by
  refine ⟨?_, ?_⟩
  · intro st mt rn nt
    unfold adjust
    simp [absentField, truthy]
  · intro s q mt rn nt hq hmt hparse
    rw [adjust_some, if_pos (by simp [hq, hmt])]
    obtain ⟨⟨msg, hmsg⟩, hsnd⟩ := adjustFound_nan false s q mt rn nt hparse
    exact ⟨⟨msg, hmsg⟩, by simp [hsnd]⟩

/-- Witness for `c5_quantity_validation`: an absent quantity on a concrete
state, and the non-numeric `"abc"` on quantity 50. -/
theorem c5_witness :
    adjust false (some (sampleState 50)) absentField "IN" "" "" =
      (.badRequest "Quantity and movement type are required",
       some (sampleState 50)) ∧
    ((∃ msg, (adjust false (some (sampleState 50)) (.str "abc") "IN" "" "").1
        = .serverError msg) ∧
     (adjust false (some (sampleState 50)) (.str "abc") "IN" "" "").2 =
      some (sampleState 50)) :=
  ⟨c5_quantity_validation.1 (some (sampleState 50)) "IN" "" "",
   c5_quantity_validation.2 (sampleState 50) (.str "abc") "IN" "" ""
     (by decide) (by decide) (by decide)⟩

/-- C6 (counterexample): an unrecognized movement type is answered through
the generic 500 error channel (`res.status(500)` with `error.message`), not
as a 400-class `InvalidRequest`: only its message distinguishes it. -/
theorem c6_counterexample :
    (adjust false (some (sampleState 50)) (.num 5) "RESTOCK" "" "").1 =
      .serverError "Invalid movement type" ∧
    isBadRequest
        (adjust false (some (sampleState 50)) (.num 5) "RESTOCK" "" "").1 =
      false := by
  decide

/-- C6 (amended): a provided movement type other than `IN`, `OUT`,
`ADJUSTMENT` always fails with the distinct message
`Invalid movement type` — never a silent no-op — and leaves the state
unchanged (no write); the response is the 500 server-error status rather
than a 400-class `InvalidRequest`. -/
theorem c6_invalid_movement_type (s : ProductState) (q : JSValue)
    (mt rn nt : String) (hq : truthy q = true) (h0 : mt ≠ "")
    (h1 : mt ≠ "IN") (h2 : mt ≠ "OUT") (h3 : mt ≠ "ADJUSTMENT") :
    adjust false (some s) q mt rn nt =
      (.serverError "Invalid movement type", some s) := by
  rw [adjust_some, if_pos (by simp [hq, h0])]
  simp [adjustFound, h1, h2, h3]

/-- Witness for `c6_invalid_movement_type` at movement type `"RESTOCK"`. -/
theorem c6_witness :
    adjust false (some (sampleState 50)) (.num 5) "RESTOCK" "" "" =
      (.serverError "Invalid movement type", some (sampleState 50)) :=
  c6_invalid_movement_type (sampleState 50) (.num 5) "RESTOCK" "" ""
    (by decide) (by decide) (by decide) (by decide) (by decide)

/-- C7 (counterexample): `Adjust(OUT, 0)` with the JSON number `0` is
refused by the truthiness presence check (`!quantity` is true for `0`),
answering 400 — it is not processed by the movement logic. -/
theorem c7_counterexample :
    adjust false (some (sampleState 10)) (.num 0) "OUT" "" "" =
      (.badRequest "Quantity and movement type are required",
       some (sampleState 10)) := by
  decide

/-- C7 (amended): the movement logic applies no sign validation — a negative
`IN` magnitude and a negative `ADJUSTMENT` target are processed and commit,
and a zero magnitude submitted as the string `"0"` is processed — but the
JSON number `0` never reaches the logic: the truthiness presence check
refuses it with a 400. -/
theorem c7_no_sign_validation :
    (∀ (s : ProductState) (q : Int) (rn nt : String), q < 0 →
      int4range q = true → int4range (s.inv.quantity + q) = true →
      adjust false (some s) (.num q) "IN" rn nt =
        (.success s.inv.quantity (s.inv.quantity + q),
         some { inv := { s.inv with quantity := s.inv.quantity + q },
                movements := s.movements ++ [⟨"IN", q, rn, nt⟩] })) ∧
    (∀ (s : ProductState) (rn nt : String), 0 ≤ s.inv.quantity →
      int4range s.inv.quantity = true →
      adjust false (some s) (.str "0") "OUT" rn nt =
        (.success s.inv.quantity s.inv.quantity,
         some { inv := { s.inv with quantity := s.inv.quantity },
                movements := s.movements ++ [⟨"OUT", 0, rn, nt⟩] })) ∧
    (∀ (s : ProductState) (q : Int) (rn nt : String), q < 0 →
      int4range q = true →
      adjust false (some s) (.num q) "ADJUSTMENT" rn nt =
        (.success s.inv.quantity q,
         some { inv := { s.inv with quantity := q },
                movements := s.movements ++ [⟨"ADJUSTMENT", q, rn, nt⟩] })) ∧
    (∀ (st : Option ProductState) (mt rn nt : String),
      adjust false st (.num 0) mt rn nt =
        (.badRequest "Quantity and movement type are required", st)) := by
  refine ⟨?_, ?_, ?_, ?_⟩
  · intro s q rn nt hneg hr1 hr2
    rw [adjust_some, if_pos (by simp [truthy]; omega)]
    unfold adjustFound
    dsimp only
    simp [jsParseInt, pgIntValue, hr1, hr2]
  · intro s rn nt h0 hr
    have hp : jsParseInt (JSValue.str "0") = some 0 := by decide
    have hpg : pgIntValue (JSValue.str "0") = some 0 := by decide
    have hnl : ¬ (s.inv.quantity < 0) := by omega
    have hz : int4range (0 : Int) = true := by decide
    rw [adjust_some, if_pos (by decide)]
    unfold adjustFound
    dsimp only
    simp [hp, hpg, hnl, hr, hz]
  · intro s q rn nt hneg hr
    rw [adjust_some, if_pos (by simp [truthy]; omega)]
    unfold adjustFound
    dsimp only
    simp [jsParseInt, pgIntValue, hr]
  · intro st mt rn nt
    unfold adjust
    simp [truthy]

/-- Witness for `c7_no_sign_validation`: `Adjust(IN, -5)` on quantity 50
commits quantity 45, `Adjust(OUT, "0")` on quantity 50 commits unchanged,
`Adjust(ADJUSTMENT, -3)` commits `-3`, and the number `0` is refused. -/
theorem c7_witness :
    adjust false (some (sampleState 50)) (.num (-5)) "IN" "" "" =
      (.success 50 45,
       some { inv := { quantity := 45, min_stock_level := 0,
                       max_stock_level := 1000, location := "A1" },
              movements := [⟨"IN", -5, "", ""⟩] }) ∧
    adjust false (some (sampleState 50)) (.num (-3)) "ADJUSTMENT" "" "" =
      (.success 50 (-3),
       some { inv := { quantity := -3, min_stock_level := 0,
                       max_stock_level := 1000, location := "A1" },
              movements := [⟨"ADJUSTMENT", -3, "", ""⟩] }) ∧
    adjust false (some (sampleState 50)) (.num 0) "OUT" "" "" =
      (.badRequest "Quantity and movement type are required",
       some (sampleState 50)) :=
  ⟨c7_no_sign_validation.1 (sampleState 50) (-5) "" "" (by decide)
     (by decide) (by decide),
   c7_no_sign_validation.2.2.1 (sampleState 50) (-3) "" "" (by decide)
     (by decide),
   c7_no_sign_validation.2.2.2 (some (sampleState 50)) "OUT" "" ""⟩

/-- Membership in the low-stock result is exactly membership in the
inventory with `quantity <= min_stock_level`. -/
theorem lowStock_mem (rows : List InventoryRow) (r : InventoryRow) :
    r ∈ lowStock rows ↔ r ∈ rows ∧ r.quantity ≤ r.min_stock_level := by
  unfold lowStock
  rw [List.mem_mergeSort, List.mem_filter]
  simp

/-- C8: the low-stock query returns exactly the inventory rows with
`quantity <= min_stock_level` (membership characterization and permutation
of the filter), ordered ascending by quantity; a row with quantity 5 and
minimum 10 is included, one with quantity 15 and minimum 10 is excluded. -/
theorem c8_low_stock_query :
    (∀ (rows : List InventoryRow) (r : InventoryRow),
      r ∈ lowStock rows ↔ r ∈ rows ∧ r.quantity ≤ r.min_stock_level) ∧
    (∀ rows : List InventoryRow,
      (lowStock rows).Pairwise (fun a b => a.quantity ≤ b.quantity)) ∧
    (∀ rows : List InventoryRow,
      (lowStock rows).Perm
        (rows.filter (fun r => decide (r.quantity ≤ r.min_stock_level)))) ∧
    (⟨5, 10, 1000, "A1"⟩ : InventoryRow) ∈
        lowStock [⟨5, 10, 1000, "A1"⟩, ⟨15, 10, 1000, "A1"⟩] ∧
    (⟨15, 10, 1000, "A1"⟩ : InventoryRow) ∉
        lowStock [⟨5, 10, 1000, "A1"⟩, ⟨15, 10, 1000, "A1"⟩] := by
  refine ⟨lowStock_mem, ?_, ?_, ?_, ?_⟩
  · intro rows
    unfold lowStock
    have h : (List.mergeSort
        (rows.filter (fun r => r.quantity ≤ r.min_stock_level))
        (fun a b => decide (a.quantity ≤ b.quantity))).Pairwise
        (fun a b => decide (a.quantity ≤ b.quantity) = true) :=
      List.sorted_mergeSort
        (by intro a b c hab hbc; simp at *; omega)
        (by intro a b; simp; omega)
        (rows.filter (fun r => r.quantity ≤ r.min_stock_level))
    exact h.imp (by intro a b hab; simpa using hab)
  · intro rows
    unfold lowStock
    exact List.mergeSort_perm _ _
  · rw [lowStock_mem]
    exact ⟨by simp, by norm_num⟩
  · rw [lowStock_mem]
    rintro ⟨-, h⟩
    norm_num at h

/-- The transaction body never answers a 400: validation happens only in
the endpoint's presence check. -/
theorem adjustFound_not_badRequest (fi : Bool) (s : ProductState)
    (q : JSValue) (mt rn nt : String) :
    isBadRequest (adjustFound fi s q mt rn nt).1 = false := by
  unfold adjustFound
  dsimp only
  repeat' split
  all_goals rfl

/-- A quantity the `INTEGER` column cannot bind makes the movement insert
fail, so the transaction body cannot succeed. -/
theorem adjustFound_pg_none_not_success (s : ProductState) (q : JSValue)
    (mt rn nt : String) (hpg : pgIntValue q = none) :
    isSuccess (adjustFound false s q mt rn nt).1 = false := by
  unfold adjustFound
  dsimp only
  repeat' split
  all_goals simp_all [isSuccess]

/-- C10 (counterexample): submitting the non-integer numeric string `"6.9"`
does not commit a truncated update with an untruncated movement row — the
`INSERT` of `"6.9"` into the `INTEGER` column fails, the transaction rolls
back, and the state is unchanged. -/
theorem c10_counterexample :
    adjust false (some (sampleState 50)) (.str "6.9") "IN" "" "" =
      (.serverError "invalid input syntax for type integer",
       some (sampleState 50)) := by
  decide

/-- C10 (amended): a numeric-but-non-integer quantity is not rejected by
input validation (no 400), and the new quantity is computed from the
`parseInt`-truncated value; but the movement insert binds the raw submitted
value to an `INTEGER` column and fails, so the call never succeeds and the
state is unchanged — the stored movement value and the applied delta never
disagree because nothing is stored. -/
theorem c10_nonint_quantity (s : ProductState) (q : JSValue)
    (mt rn nt : String) (n : Int) (_hjs : jsParseInt q = some n)
    (hpg : pgIntValue q = none) (hq : truthy q = true) (hmt : mt ≠ "") :
    isBadRequest (adjust false (some s) q mt rn nt).1 = false ∧
    isSuccess (adjust false (some s) q mt rn nt).1 = false ∧
    (adjust false (some s) q mt rn nt).2 = some s := by
  rw [adjust_some, if_pos (by simp [hq, hmt])]
  have hns := adjustFound_pg_none_not_success s q mt rn nt hpg
  refine ⟨by simpa using adjustFound_not_badRequest false s q mt rn nt,
    by simpa using hns, ?_⟩
  rcases adjustFound_cases false s q mt rn nt with ⟨h1, _⟩ | ⟨n2, m, hf⟩
  · simp [h1]
  · rw [hf] at hns
    simp [isSuccess] at hns

/-- Witness for `c10_nonint_quantity` at the quantity `"6.9"` (which
`parseInt` truncates to 6) on quantity 50. -/
theorem c10_witness :
    isBadRequest
        (adjust false (some (sampleState 50)) (.str "6.9") "IN" "" "").1 =
      false ∧
    isSuccess
        (adjust false (some (sampleState 50)) (.str "6.9") "IN" "" "").1 =
      false ∧
    (adjust false (some (sampleState 50)) (.str "6.9") "IN" "" "").2 =
      some (sampleState 50) :=
  c10_nonint_quantity (sampleState 50) (.str "6.9") "IN" "" "" 6
    (by decide) (by decide) (by decide) (by decide)
